import Mathlib

/-!
# Bonefish WAMP router: raw-socket connection, WebSocket transport, random identifiers

A shallow embedding of

* `src/bonefish/rawsocket/tcp_connection.cpp`
* `src/bonefish/websocket/websocket_transport.cpp`
* `src/bonefish/identifiers/wamp_random_id.hpp`

Member functions become pure functions that take the object state and return
the new state together with the list of observable effects they performed
(handler invocations, socket writes, scheduled asynchronous reads), in program
order.  Machine integers are natural numbers reduced modulo `2^32` or bounded
by `2^64` where the width matters.  Logging (`BONEFISH_TRACE`, `std::cerr`) is
not an observable effect of the model.
-/

namespace bonefish

/-! ## Bytes, 32-bit words and byte order -/

/-- One octet (`char` / `uint8_t`). -/
abbrev byte := Fin 256

/-- Truncation of a natural number to one octet. -/
def to_byte (x : Nat) : byte := ⟨x % 256, Nat.mod_lt x (by decide)⟩

/-- Byte order of the host the router runs on. -/
inductive endianness where
  | little
  | big
deriving DecidableEq, Repr

/-- The `uint32_t` a host holds after four octets were copied, in wire order, to
its address (what `boost::asio::buffer(&x, sizeof(x))` exposes to a read). -/
def load_u32 (h : endianness) (b0 b1 b2 b3 : byte) : Nat :=
  match h with
  | .big => b0.val * 2 ^ 24 + b1.val * 2 ^ 16 + b2.val * 2 ^ 8 + b3.val
  | .little => b3.val * 2 ^ 24 + b2.val * 2 ^ 16 + b1.val * 2 ^ 8 + b0.val

/-- The four octets, in address order, of a `uint32_t` held by the host (what
`boost::asio::buffer(&x, sizeof(x))` exposes to a write). -/
def store_u32 (h : endianness) (v : Nat) : List byte :=
  match h with
  | .big => [to_byte (v / 2 ^ 24), to_byte (v / 2 ^ 16), to_byte (v / 2 ^ 8), to_byte v]
  | .little => [to_byte v, to_byte (v / 2 ^ 8), to_byte (v / 2 ^ 16), to_byte (v / 2 ^ 24)]

/-- Reversal of the four octets of a 32-bit word. -/
def bswap32 (v : Nat) : Nat :=
  (v % 256) * 2 ^ 24 + (v / 2 ^ 8 % 256) * 2 ^ 16 + (v / 2 ^ 16 % 256) * 2 ^ 8 + v / 2 ^ 24 % 256

/-- Network-to-host conversion of a 32-bit word (`ntohl`). -/
def ntohl (h : endianness) (v : Nat) : Nat :=
  match h with
  | .big => v % 2 ^ 32
  | .little => bswap32 v

/-- Host-to-network conversion of a 32-bit word (`htonl`); the argument is
converted to `uint32_t` first, as the C prototype does. -/
def htonl (h : endianness) (v : Nat) : Nat :=
  match h with
  | .big => v % 2 ^ 32
  | .little => bswap32 v

/-- The first `n` octets found at a `char*`; memory is a map from offsets to
octets. -/
def read_bytes (p : Nat → byte) (n : Nat) : List byte := (List.range n).map p

/-- Memory after the octets `bs` were stored from offset zero on. -/
def write_bytes (p : Nat → byte) (bs : List byte) : Nat → byte :=
  fun i => bs.getD i (p i)

/-! ## Boost error codes -/

/-- A `boost::system::error_code`: a value and the identity of its category. -/
structure error_code where
  value : Int
  category : Nat
deriving DecidableEq, Repr

/-- Conversion of an `error_code` to `bool`, as in `if (error_code)`. -/
def error_code.failed (e : error_code) : Bool := e.value != 0

/-- The success code. -/
def error_code.success : error_code := ⟨0, 0⟩

/-- What the build platform and Boost fix and the sources only name: the host
byte order, the two Boost.Asio error constants `handle_system_error` compares
with, and the text `error_code::message()` gives. -/
structure platform where
  host : endianness
  eof : error_code
  operation_aborted : error_code
  message : error_code → String
  /-- The two constants are different codes. -/
  distinct : eof ≠ operation_aborted

/-- A little-endian POSIX platform: `boost::asio::error::eof` is value 2 of the
misc category, `operation_aborted` is `ECANCELED` (125) of the system
category. -/
def posix_platform : platform :=
  { host := .little
    eof := ⟨2, 2⟩
    operation_aborted := ⟨125, 1⟩
    message := fun e => if e = ⟨2, 2⟩ then "End of file" else "system error"
    distinct := by decide }

/-! ## Observable effects -/

/-- What a member function of `tcp_connection` does to the outside, in program
order. -/
inductive effect where
  /-- Call `get_handshake_handler()(shared_from_this(), capabilities)`. -/
  | handshake_handler (capabilities : Nat)
  /-- Call `get_message_handler()(shared_from_this(), data, length)`, recorded
  with the `length` octets found at `data`. -/
  | message_handler (payload : List byte)
  /-- Call `get_close_handler()(shared_from_this())`. -/
  | close_handler
  /-- Call `get_fail_handler()(shared_from_this(), reason)`. -/
  | fail_handler (reason : String)
  /-- Start of an `async_read` of `sizeof(m_capabilities)` octets into
  `m_capabilities`, completing in `receive_handshake_handler`. -/
  | async_read_handshake
  /-- Start of an `async_read` of `sizeof(m_message_length)` octets into
  `m_message_length`, completing in `receive_message_header_handler`. -/
  | async_read_header
  /-- Start of an `async_read` of `length` octets into `m_message_buffer.data()`,
  completing in `receive_message_body_handler`. -/
  | async_read_body (length : Nat)
  /-- Blocking `boost::asio::write` of the given octets to the socket. -/
  | write (bytes : List byte)
  /-- A failed `assert`; the process aborts. -/
  | assert_failed
deriving DecidableEq, Repr

/-- Whether the effect is a socket write. -/
def effect.is_write : effect → Bool
  | .write _ => true
  | _ => false

/-- Whether the effect is a call of the message handler. -/
def effect.is_message_handler : effect → Bool
  | .message_handler _ => true
  | _ => false

/-- Whether the effect is a call of the fail handler. -/
def effect.is_fail_handler : effect → Bool
  | .fail_handler _ => true
  | _ => false

/-- Whether the effect is a call of the close handler. -/
def effect.is_close_handler : effect → Bool
  | .close_handler => true
  | _ => false

/-- Whether the effect is a call of the handshake handler. -/
def effect.is_handshake_handler : effect → Bool
  | .handshake_handler _ => true
  | _ => false

/-- Whether the effect schedules an asynchronous read. -/
def effect.is_async_read : effect → Bool
  | .async_read_handshake => true
  | .async_read_header => true
  | .async_read_body _ => true
  | _ => false

/-! ## `tcp_connection` -/

/-- The data members of `tcp_connection` the handlers read and write, and whether
a message handler is installed in the `rawsocket_connection` base. -/
structure tcp_connection where
  /-- Member `uint32_t m_capabilities`, as the host holds it. -/
  m_capabilities : Nat
  /-- Member `uint32_t m_message_length`, as the host holds it. -/
  m_message_length : Nat
  /-- The memory at `m_message_buffer.data()`. -/
  m_message_buffer : Nat → byte
  /-- The value of `m_message_buffer.capacity()`. -/
  m_message_buffer_capacity : Nat
  /-- Whether `get_message_handler()` holds a callable. -/
  has_message_handler : Bool

/-- The state the constructor leaves (no handler installed yet). -/
def tcp_connection.init : tcp_connection :=
  { m_capabilities := 0
    m_message_length := 0
    m_message_buffer := fun _ => 0
    m_message_buffer_capacity := 0
    has_message_handler := false }

/-- Member `std::vector::reserve`: the capacity grows to at least `n`.  Failure
to allocate is outside the model. -/
def tcp_connection.reserve (c : tcp_connection) (n : Nat) : tcp_connection :=
  { c with m_message_buffer_capacity := max c.m_message_buffer_capacity n }

/-- Member `tcp_connection::handle_system_error`. -/
def tcp_connection.handle_system_error (p : platform) (e : error_code) : List effect :=
  if e = p.eof then
    [.close_handler]
  else if e ≠ p.operation_aborted then
    [.fail_handler (p.message e)]
  else
    [.assert_failed]

/-- Member `tcp_connection::async_handshake`. -/
def tcp_connection.async_handshake (_c : tcp_connection) : List effect :=
  [.async_read_handshake]

/-- Member `tcp_connection::async_receive`; the assertion precedes the read. -/
def tcp_connection.async_receive (c : tcp_connection) : List effect :=
  if c.m_capabilities ≠ 0 then
    [.async_read_header]
  else
    [.assert_failed]

/-- Member `tcp_connection::send_handshake`; `ec` is the outcome of the write.  The
result is `none` when an assertion aborted the process. -/
def tcp_connection.send_handshake (p : platform) (_c : tcp_connection) (capabilities : Nat)
    (ec : error_code) : Option Bool × List effect :=
  let w := effect.write (store_u32 p.host (capabilities % 2 ^ 32))
  if ec.failed then
    let es := tcp_connection.handle_system_error p ec
    (if effect.assert_failed ∈ es then none else some false, w :: es)
  else
    (some true, [w])

/-- Member `tcp_connection::send_message`; `message` is the memory at the `const char*`,
`length` the `size_t` argument, `ec1` and `ec2` the outcomes of the first and
of the second write.  The result is `none` when an assertion aborted the
process. -/
def tcp_connection.send_message (p : platform) (_c : tcp_connection) (message : Nat → byte)
    (length : Nat) (ec1 ec2 : error_code) : Option Bool × List effect :=
  let length_word := htonl p.host length
  let w1 := effect.write (store_u32 p.host length_word)
  if ec1.failed then
    let es := tcp_connection.handle_system_error p ec1
    (if effect.assert_failed ∈ es then none else some false, w1 :: es)
  else
    let w2 := effect.write (read_bytes message length)
    if ec2.failed then
      let es := tcp_connection.handle_system_error p ec2
      (if effect.assert_failed ∈ es then none else some false, w1 :: w2 :: es)
    else
      (some true, [w1, w2])

/-- Member `tcp_connection::receive_handshake_handler`. -/
def tcp_connection.receive_handshake_handler (p : platform) (c : tcp_connection)
    (ec : error_code) (bytes_transferred : Nat) : List effect :=
  if ec.failed then
    tcp_connection.handle_system_error p ec
  else if bytes_transferred ≠ 4 then
    [.assert_failed]
  else
    [.handshake_handler (ntohl p.host c.m_capabilities)]

/-- Member `tcp_connection::receive_message_header_handler`. -/
def tcp_connection.receive_message_header_handler (p : platform) (c : tcp_connection)
    (ec : error_code) (_bytes_transferred : Nat) : tcp_connection × List effect :=
  if ec.failed then
    (c, tcp_connection.handle_system_error p ec)
  else if c.m_message_length = 0 then
    (c, [.fail_handler "invalid message length"])
  else
    (c.reserve (ntohl p.host c.m_message_length),
      [.async_read_body (ntohl p.host c.m_message_length)])

/-- Member `tcp_connection::receive_message_body_handler`. -/
def tcp_connection.receive_message_body_handler (p : platform) (c : tcp_connection)
    (ec : error_code) (bytes_transferred : Nat) : List effect :=
  if ec.failed then
    tcp_connection.handle_system_error p ec
  else if ¬ c.has_message_handler then
    [.assert_failed]
  else
    .message_handler (read_bytes c.m_message_buffer bytes_transferred) :: c.async_receive

/-! ### Completion of the asynchronous reads

`boost::asio::async_read` stores the octets it received at the address it was
given and then runs the completion lambda, which locks `weak_self` and calls
the member handler with the error code and the number of octets stored. -/

/-- Completion of the read `async_handshake` started. -/
def tcp_connection.handshake_read_complete (p : platform) (c : tcp_connection)
    (ec : error_code) (b0 b1 b2 b3 : byte) : tcp_connection × List effect :=
  let c1 := { c with m_capabilities := load_u32 p.host b0 b1 b2 b3 }
  (c1, c1.receive_handshake_handler p ec 4)

/-- Completion of the read `async_receive` started. -/
def tcp_connection.header_read_complete (p : platform) (c : tcp_connection)
    (ec : error_code) (b0 b1 b2 b3 : byte) : tcp_connection × List effect :=
  let c1 := { c with m_message_length := load_u32 p.host b0 b1 b2 b3 }
  c1.receive_message_header_handler p ec 4

/-- Completion of the read `receive_message_header_handler` started, with the
octets received. -/
def tcp_connection.body_read_complete (p : platform) (c : tcp_connection)
    (ec : error_code) (received : List byte) : tcp_connection × List effect :=
  let c1 := { c with m_message_buffer := write_bytes c.m_message_buffer received }
  (c1, c1.receive_message_body_handler p ec received.length)

/-! ## `websocket_transport` -/

/-- The two data opcodes of `websocketpp::frame::opcode`. -/
inductive opcode where
  | TEXT
  | BINARY
deriving DecidableEq, Repr

/-- The wire encodings a serializer can implement. -/
inductive serializer_kind where
  | msgpack
  | json
deriving DecidableEq, Repr

/-- Modelled from the spec: the class `wamp_serializer` is declared outside the
sources at hand.  `kind` is the encoding the spec ties to the subprotocol
(`wamp.2.msgpack` or `wamp.2.json`); `serialize message buffer size` gives the
memory of `buffer` after the call and the length the call returns. -/
structure wamp_serializer (M : Type) where
  kind : serializer_kind
  serialize : M → (Nat → byte) → Nat → (Nat → byte) × Nat

/-- What `websocket_transport::send_message` does to the outside, in program
order. -/
inductive ws_effect (M : Type) where
  /-- Call `m_serializer->serialize(message, buffer, size)`. -/
  | serialize (message : M) (size : Nat)
  /-- Call `m_server->send(handle, payload, length, op)`, recorded with the
  `length` octets found at `payload`. -/
  | send (handle : Nat) (payload : List byte) (op : opcode)
deriving DecidableEq, Repr

/-- The opcodes of the WebSocket messages sent, in order. -/
def ws_effect.opcodes {M : Type} : List (ws_effect M) → List opcode
  | [] => []
  | .send _ _ op :: es => op :: ws_effect.opcodes es
  | .serialize _ _ :: es => ws_effect.opcodes es

/-- The payloads of the WebSocket messages sent, in order. -/
def ws_effect.payloads {M : Type} : List (ws_effect M) → List (List byte)
  | [] => []
  | .send _ pl _ :: es => pl :: ws_effect.payloads es
  | .serialize _ _ :: es => ws_effect.payloads es

/-- The sizes the serializer was called with, in order. -/
def ws_effect.serialize_sizes {M : Type} : List (ws_effect M) → List Nat
  | [] => []
  | .send _ _ _ :: es => ws_effect.serialize_sizes es
  | .serialize _ n :: es => n :: ws_effect.serialize_sizes es

/-- The data members of `websocket_transport`; the server is the outside. -/
structure websocket_transport (M : Type) where
  m_serializer : wamp_serializer M
  m_handle : Nat

/-- Member `websocket_transport::send_message`; `stack` is the indeterminate
content of the local `char buffer[10*1024]` on entry. -/
def websocket_transport.send_message {M : Type} (t : websocket_transport M) (message : M)
    (stack : Nat → byte) : Bool × List (ws_effect M) :=
  let r := t.m_serializer.serialize message stack (10 * 1024)
  let length := r.2
  if length ≠ 0 then
    (true, [.serialize message (10 * 1024), .send t.m_handle (read_bytes r.1 length) .BINARY])
  else
    (false, [.serialize message (10 * 1024)])

/-! ## `wamp_random_id` -/

/-- The exception the constructor throws. -/
inductive exception where
  | invalid_argument (what : String)
deriving DecidableEq, Repr

/-- The class `wamp_random_id`: one `uint64_t` member. -/
structure wamp_random_id where
  m_id : Nat
deriving DecidableEq, Repr

/-- Constant `wamp_random_id::MIN`. -/
def wamp_random_id.MIN : Nat := 0

/-- Constant `wamp_random_id::MAX`, `1ULL << 53`. -/
def wamp_random_id.MAX : Nat := 2 ^ 53

/-- Constant `wamp_random_id::INVALID`, the largest `uint64_t`. -/
def wamp_random_id.INVALID : Nat := 2 ^ 64 - 1

/-- The default constructor `wamp_random_id::wamp_random_id()`. -/
def wamp_random_id.wamp_random_id_default : wamp_random_id := ⟨wamp_random_id.INVALID⟩

/-- The constructor `wamp_random_id::wamp_random_id(uint64_t id)`. -/
def wamp_random_id.wamp_random_id_from (id : Nat) : Except exception wamp_random_id :=
  let m_id := id
  if m_id > wamp_random_id.MAX then
    .error (.invalid_argument ("random id " ++ toString m_id ++ " is out of range"))
  else
    .ok ⟨m_id⟩

/-- Member `wamp_random_id::is_valid`. -/
def wamp_random_id.is_valid (r : wamp_random_id) : Bool := r.m_id != wamp_random_id.INVALID

/-- Member `wamp_random_id::id`. -/
def wamp_random_id.id (r : wamp_random_id) : Nat := r.m_id

/-! ## The wire format as the specification words it -/

/-- The 32-bit value of four octets read most significant first. -/
def be32 (b0 b1 b2 b3 : byte) : Nat :=
  b0.val * 2 ^ 24 + b1.val * 2 ^ 16 + b2.val * 2 ^ 8 + b3.val

/-- The per-message header of the specification: octet 0 is the message kind,
octets 1 to 3 the payload length as a 24-bit big-endian integer. -/
def spec_message_header (kind : byte) (n : Nat) : List byte :=
  [kind, to_byte (n / 2 ^ 16), to_byte (n / 2 ^ 8), to_byte n]

/-- The maximum message length exponent `L` of the specification: the high
nibble of handshake octet 1, read from the capabilities word the connection
holds. -/
def spec_max_length_exponent (p : platform) (c : tcp_connection) : Nat :=
  ntohl p.host c.m_capabilities / 2 ^ 20 % 16

/-! ## Concrete inputs -/

/-- A connection on which the server installed its message handler. -/
def tcp_connection.served : tcp_connection :=
  { tcp_connection.init with has_message_handler := true }

/-- The served connection after the handshake `7F 01 00 00` was read: exponent
`L = 0`, serializer 1. -/
def tcp_connection.after_handshake : tcp_connection :=
  (tcp_connection.served.handshake_read_complete posix_platform error_code.success
    0x7F 0x01 0x00 0x00).1

/-- The served connection after the handshake `7F F1 00 00` was read: exponent
`L = 15`, serializer 1. -/
def tcp_connection.after_handshake_max : tcp_connection :=
  (tcp_connection.served.handshake_read_complete posix_platform error_code.success
    0x7F 0xF1 0x00 0x00).1

/-- A serializer of kind JSON that encodes every message as the two octets of
an empty array. -/
def json_stub : wamp_serializer Unit :=
  { kind := .json
    serialize := fun _ buffer _ => (write_bytes buffer [0x5B, 0x5D], 2) }

/-- A transport that uses the JSON stub. -/
def json_transport : websocket_transport Unit :=
  { m_serializer := json_stub
    m_handle := 7 }

/-! ## Byte-order lemmas -/

theorem ntohl_load_u32 (h : endianness) (b0 b1 b2 b3 : byte) :
    ntohl h (load_u32 h b0 b1 b2 b3) = be32 b0 b1 b2 b3 := by
  have h0 := b0.isLt
  have h1 := b1.isLt
  have h2 := b2.isLt
  have h3 := b3.isLt
  cases h <;> simp only [ntohl, load_u32, bswap32, be32] <;> omega

theorem load_u32_eq_zero_iff (h : endianness) (b0 b1 b2 b3 : byte) :
    load_u32 h b0 b1 b2 b3 = 0 ↔ b0 = 0 ∧ b1 = 0 ∧ b2 = 0 ∧ b3 = 0 := by
  have h0 := b0.isLt
  have h1 := b1.isLt
  have h2 := b2.isLt
  have h3 := b3.isLt
  simp only [Fin.ext_iff, Fin.val_zero]
  cases h <;> simp only [load_u32] <;> omega

theorem store_u32_htonl (h : endianness) (v : Nat) :
    store_u32 h (htonl h v)
      = [to_byte (v / 2 ^ 24), to_byte (v / 2 ^ 16), to_byte (v / 2 ^ 8), to_byte v] := by
  cases h
  · simp only [store_u32, htonl, bswap32, to_byte, List.cons.injEq, Fin.mk.injEq, and_true]
    have e0 := Nat.mod_lt v (show 0 < 256 by decide)
    have e1 := Nat.mod_lt (v / 2 ^ 8) (show 0 < 256 by decide)
    have e2 := Nat.mod_lt (v / 2 ^ 16) (show 0 < 256 by decide)
    have e3 := Nat.mod_lt (v / 2 ^ 24) (show 0 < 256 by decide)
    generalize v % 256 = x0 at *
    generalize v / 2 ^ 8 % 256 = x1 at *
    generalize v / 2 ^ 16 % 256 = x2 at *
    generalize v / 2 ^ 24 % 256 = x3 at *
    omega
  · simp only [store_u32, htonl, to_byte, List.cons.injEq, Fin.mk.injEq, and_true]
    omega

theorem read_bytes_write_bytes (m : Nat → byte) (bs : List byte) :
    read_bytes (write_bytes m bs) bs.length = bs := by
  apply List.ext_getElem
  · simp [read_bytes]
  · intro i h1 h2
    simp [read_bytes, write_bytes, List.getD, List.getElem?_eq_getElem h2]

/-! ## Behaviour lemmas shared by the claims -/

theorem handle_system_error_eof (p : platform) :
    tcp_connection.handle_system_error p p.eof = [.close_handler] := by
  simp [tcp_connection.handle_system_error]

theorem handle_system_error_aborted (p : platform) :
    tcp_connection.handle_system_error p p.operation_aborted = [.assert_failed] := by
  have hd : ¬ p.operation_aborted = p.eof := fun h => p.distinct h.symm
  simp [tcp_connection.handle_system_error, hd]

theorem handle_system_error_other (p : platform) (e : error_code) (h1 : e ≠ p.eof)
    (h2 : e ≠ p.operation_aborted) :
    tcp_connection.handle_system_error p e = [.fail_handler (p.message e)] := by
  simp [tcp_connection.handle_system_error, h1, h2]

theorem handle_system_error_cases (p : platform) (e : error_code) :
    tcp_connection.handle_system_error p e = [.close_handler]
      ∨ tcp_connection.handle_system_error p e = [.fail_handler (p.message e)]
      ∨ tcp_connection.handle_system_error p e = [.assert_failed] := by
  unfold tcp_connection.handle_system_error
  split
  · exact Or.inl rfl
  · split
    · exact Or.inr (Or.inl rfl)
    · exact Or.inr (Or.inr rfl)

theorem header_handler_effects_ok (p : platform) (c : tcp_connection) (ec : error_code)
    (n : Nat) (hok : ec.failed = false) :
    (c.receive_message_header_handler p ec n).2
      = if c.m_message_length = 0 then [.fail_handler "invalid message length"]
        else [.async_read_body (ntohl p.host c.m_message_length)] := by
  unfold tcp_connection.receive_message_header_handler
  simp only [hok, Bool.false_eq_true, if_false]
  split <;> rfl

theorem header_read_complete_effects_ok (p : platform) (c : tcp_connection) (ec : error_code)
    (b0 b1 b2 b3 : byte) (hok : ec.failed = false) :
    (c.header_read_complete p ec b0 b1 b2 b3).2
      = if b0 = 0 ∧ b1 = 0 ∧ b2 = 0 ∧ b3 = 0 then [.fail_handler "invalid message length"]
        else [.async_read_body (be32 b0 b1 b2 b3)] := by
  unfold tcp_connection.header_read_complete
  rw [header_handler_effects_ok p _ ec 4 hok]
  simp only [load_u32_eq_zero_iff, ntohl_load_u32]

theorem header_read_complete_state_ok (p : platform) (c : tcp_connection) (ec : error_code)
    (b0 b1 b2 b3 : byte) :
    (c.header_read_complete p ec b0 b1 b2 b3).1.m_capabilities = c.m_capabilities
      ∧ (c.header_read_complete p ec b0 b1 b2 b3).1.has_message_handler
          = c.has_message_handler := by
  unfold tcp_connection.header_read_complete tcp_connection.receive_message_header_handler
  simp only [tcp_connection.reserve]
  split
  · exact ⟨rfl, rfl⟩
  · split <;> exact ⟨rfl, rfl⟩

theorem body_read_complete_effects_ok (p : platform) (c : tcp_connection) (ec : error_code)
    (received : List byte) (hok : ec.failed = false) (hmh : c.has_message_handler = true)
    (hcap : c.m_capabilities ≠ 0) :
    (c.body_read_complete p ec received).2 = [.message_handler received, .async_read_header] := by
  simp [tcp_connection.body_read_complete, tcp_connection.receive_message_body_handler, hok, hmh,
    tcp_connection.async_receive, hcap, read_bytes_write_bytes]

theorem body_read_complete_never_writes (p : platform) (c : tcp_connection) (ec : error_code)
    (received : List byte) :
    ((c.body_read_complete p ec received).2.any effect.is_write) = false := by
  simp only [tcp_connection.body_read_complete, tcp_connection.receive_message_body_handler,
    tcp_connection.async_receive]
  split
  · rcases handle_system_error_cases p ec with h | h | h <;> rw [h] <;> rfl
  · split
    · rfl
    · split <;> rfl

theorem header_read_complete_never_writes (p : platform) (c : tcp_connection) (ec : error_code)
    (b0 b1 b2 b3 : byte) :
    ((c.header_read_complete p ec b0 b1 b2 b3).2.any effect.is_write) = false := by
  simp only [tcp_connection.header_read_complete, tcp_connection.receive_message_header_handler]
  split
  · rcases handle_system_error_cases p ec with h | h | h <;> rw [h] <;> rfl
  · split <;> rfl

theorem send_message_header (p : platform) (c : tcp_connection) (message : Nat → byte)
    (length : Nat) (ec1 ec2 : error_code) :
    (c.send_message p message length ec1 ec2).2.head?
      = some (.write [to_byte (length / 2 ^ 24), to_byte (length / 2 ^ 16),
          to_byte (length / 2 ^ 8), to_byte length]) := by
  unfold tcp_connection.send_message
  simp only [store_u32_htonl]
  split
  · rfl
  · split <;> rfl

/-! ## Raw-socket connection: reading -/

/-- C1: when `receive_message_header_handler` runs without I/O error, a zero
`m_message_length` makes the whole effect trace one call of the fail handler
with reason "invalid message length" (so no message handler call and no read
is scheduled), and a non-zero one makes the trace one payload read of
`ntohl(m_message_length)` octets (so no fail handler call); in terms of the
four header octets received, the trace is the failure when all four are zero
and otherwise a payload read of their big-endian value. -/
theorem header_zero_fails_nonzero_schedules_body (p : platform) (c : tcp_connection)
    (ec : error_code) (n : Nat) (b0 b1 b2 b3 : byte) (hok : ec.failed = false) :
    (c.m_message_length = 0 →
        (c.receive_message_header_handler p ec n).2
          = [.fail_handler "invalid message length"])
      ∧ (c.m_message_length ≠ 0 →
        (c.receive_message_header_handler p ec n).2
          = [.async_read_body (ntohl p.host c.m_message_length)])
      ∧ (c.header_read_complete p ec b0 b1 b2 b3).2
          = (if b0 = 0 ∧ b1 = 0 ∧ b2 = 0 ∧ b3 = 0 then
              [.fail_handler "invalid message length"]
            else
              [.async_read_body
                (b0.val * 2 ^ 24 + b1.val * 2 ^ 16 + b2.val * 2 ^ 8 + b3.val)]) := by
  refine ⟨?_, ?_, ?_⟩
  · intro hz
    rw [header_handler_effects_ok p c ec n hok, if_pos hz]
  · intro hnz
    rw [header_handler_effects_ok p c ec n hok, if_neg hnz]
  · rw [header_read_complete_effects_ok p c ec b0 b1 b2 b3 hok]
    rfl

/-- C1 at concrete inputs: the header `00 00 00 00` fails the connection, the
header `00 00 01 02` schedules a payload read of 258 octets. -/
theorem header_zero_fails_nonzero_schedules_body_witness :
    error_code.success.failed = false
      ∧ (tcp_connection.after_handshake.header_read_complete posix_platform
            error_code.success 0 0 0 0).2 = [.fail_handler "invalid message length"]
      ∧ (tcp_connection.after_handshake.header_read_complete posix_platform
            error_code.success 0 0 1 2).2 = [.async_read_body 258] :=
  ⟨rfl,
    (header_zero_fails_nonzero_schedules_body posix_platform tcp_connection.after_handshake
      error_code.success 4 0 0 0 0 rfl).2.2,
    (header_zero_fails_nonzero_schedules_body posix_platform tcp_connection.after_handshake
      error_code.success 4 0 0 1 2 rfl).2.2⟩

/-- C8: when the handshake read completes without I/O error with the octets
`b0 b1 b2 b3`, the whole effect trace is one call of the handshake handler
with `b0*2^24 + b1*2^16 + b2*2^8 + b3`, whatever the host byte order; in that
value the magic octet is bits 31-24, the length exponent bits 23-20, the
serializer id bits 19-16 and the reserved octets bits 15-0; when the read
reports an error no effect of the trace is a handshake handler call. -/
theorem handshake_read_complete_decodes_big_endian (p : platform) (c : tcp_connection)
    (ec : error_code) (b0 b1 b2 b3 : byte) :
    (ec.failed = false →
        (c.handshake_read_complete p ec b0 b1 b2 b3).2
          = [.handshake_handler
              (b0.val * 2 ^ 24 + b1.val * 2 ^ 16 + b2.val * 2 ^ 8 + b3.val)])
      ∧ ((b0.val * 2 ^ 24 + b1.val * 2 ^ 16 + b2.val * 2 ^ 8 + b3.val) / 2 ^ 24 = b0.val
        ∧ (b0.val * 2 ^ 24 + b1.val * 2 ^ 16 + b2.val * 2 ^ 8 + b3.val) / 2 ^ 20 % 16
            = b1.val / 16
        ∧ (b0.val * 2 ^ 24 + b1.val * 2 ^ 16 + b2.val * 2 ^ 8 + b3.val) / 2 ^ 16 % 16
            = b1.val % 16
        ∧ (b0.val * 2 ^ 24 + b1.val * 2 ^ 16 + b2.val * 2 ^ 8 + b3.val) % 2 ^ 16
            = b2.val * 2 ^ 8 + b3.val)
      ∧ (ec.failed = true →
        ∀ e ∈ (c.handshake_read_complete p ec b0 b1 b2 b3).2,
          e.is_handshake_handler = false) := by
  have h0 := b0.isLt
  have h1 := b1.isLt
  have h2 := b2.isLt
  have h3 := b3.isLt
  refine ⟨?_, ⟨?_, ?_, ?_, ?_⟩, ?_⟩
  · intro hok
    simp only [tcp_connection.handshake_read_complete, tcp_connection.receive_handshake_handler,
      hok, Bool.false_eq_true, if_false, ne_eq, not_true_eq_false, ntohl_load_u32, be32]
  · omega
  · omega
  · omega
  · omega
  · intro herr e he
    simp only [tcp_connection.handshake_read_complete, tcp_connection.receive_handshake_handler,
      herr, if_true] at he
    rcases handle_system_error_cases p ec with h | h | h <;> rw [h] at he <;>
      simp only [List.mem_singleton] at he <;> subst he <;> rfl

/-- C8 at a concrete input: the handshake `7F 01 00 00` reaches the handshake
handler as `0x7F010000` on a little-endian host. -/
theorem handshake_read_complete_decodes_big_endian_witness :
    (tcp_connection.served.handshake_read_complete posix_platform error_code.success
        0x7F 0x01 0x00 0x00).2 = [.handshake_handler 0x7F010000] :=
  (handshake_read_complete_decodes_big_endian posix_platform tcp_connection.served
    error_code.success 0x7F 0x01 0x00 0x00).1 rfl

/-- C10: `handle_system_error` calls the close handler once and nothing else for
`eof`, the fail handler once with the code's message and nothing else for a
code that is neither `eof` nor `operation_aborted`, and reaches the failing
assertion, calling no handler, exactly for `operation_aborted`. -/
theorem handle_system_error_dispatch (p : platform) (e : error_code) :
    (e = p.eof → tcp_connection.handle_system_error p e = [.close_handler])
      ∧ (e ≠ p.eof → e ≠ p.operation_aborted →
          tcp_connection.handle_system_error p e = [.fail_handler (p.message e)])
      ∧ (tcp_connection.handle_system_error p e = [.assert_failed]
          ↔ e = p.operation_aborted) := by
  refine ⟨?_, ?_, ?_, ?_⟩
  · intro h
    rw [h, handle_system_error_eof]
  · exact handle_system_error_other p e
  · intro h
    by_contra hne
    by_cases he : e = p.eof
    · rw [he, handle_system_error_eof] at h
      exact absurd h (by decide)
    · rw [handle_system_error_other p e he hne] at h
      exact absurd h (by simp)
  · intro h
    rw [h, handle_system_error_aborted]

/-- C3, as the code behaves: a header announcing more than `2^(9+L)` octets, `L`
being the exponent held in `m_capabilities`, is treated like any other
non-zero header; the payload read of the announced length is scheduled and,
when it completes without error, the octets received are passed to the
message handler and the next header read is scheduled. -/
theorem oversized_header_schedules_body_read (p : platform) (c : tcp_connection)
    (ec1 ec2 : error_code) (b0 b1 b2 b3 : byte) (received : List byte)
    (hok1 : ec1.failed = false) (hok2 : ec2.failed = false)
    (hmh : c.has_message_handler = true) (hcap : c.m_capabilities ≠ 0)
    (hbig : 2 ^ (9 + spec_max_length_exponent p c) < be32 b0 b1 b2 b3) :
    (c.header_read_complete p ec1 b0 b1 b2 b3).2 = [.async_read_body (be32 b0 b1 b2 b3)]
      ∧ ((c.header_read_complete p ec1 b0 b1 b2 b3).1.body_read_complete p ec2 received).2
          = [.message_handler received, .async_read_header] := by
  have hst := header_read_complete_state_ok p c ec1 b0 b1 b2 b3
  refine ⟨?_, ?_⟩
  · rw [header_read_complete_effects_ok p c ec1 b0 b1 b2 b3 hok1]
    have hne : ¬ (b0 = 0 ∧ b1 = 0 ∧ b2 = 0 ∧ b3 = 0) := by
      rintro ⟨r0, r1, r2, r3⟩
      subst r0 r1 r2 r3
      simp [be32] at hbig
    rw [if_neg hne]
  · apply body_read_complete_effects_ok p _ ec2 received hok2
    · rw [hst.2, hmh]
    · rw [hst.1]
      exact hcap

/-- C3 at a concrete input: with `L = 0` a header announcing 513 octets gets
its payload read scheduled and its payload delivered. -/
theorem oversized_header_schedules_body_read_witness :
    2 ^ (9 + spec_max_length_exponent posix_platform tcp_connection.after_handshake)
        < be32 0 0 2 1
      ∧ (tcp_connection.after_handshake.header_read_complete posix_platform
            error_code.success 0 0 2 1).2 = [.async_read_body (be32 0 0 2 1)]
      ∧ ((tcp_connection.after_handshake.header_read_complete posix_platform
            error_code.success 0 0 2 1).1.body_read_complete posix_platform
            error_code.success (List.replicate 513 42)).2
          = [.message_handler (List.replicate 513 42), .async_read_header] :=
  ⟨by decide,
    oversized_header_schedules_body_read posix_platform tcp_connection.after_handshake
      error_code.success error_code.success 0 0 2 1 (List.replicate 513 42) rfl rfl rfl
      (by decide) (by decide)⟩

/-- C3 as stated fails: the connection negotiated `L = 0` (at most 512
octets), the header `00 00 02 01` announces 513, and the payload read of 513
octets is scheduled and its payload passed to the message handler. -/
theorem oversized_message_is_read_and_delivered :
    spec_max_length_exponent posix_platform tcp_connection.after_handshake = 0
      ∧ 2 ^ (9 + 0) < be32 0 0 2 1
      ∧ (tcp_connection.after_handshake.header_read_complete posix_platform
            error_code.success 0 0 2 1).2 = [.async_read_body 513]
      ∧ ((tcp_connection.after_handshake.header_read_complete posix_platform
            error_code.success 0 0 2 1).1.body_read_complete posix_platform
            error_code.success (List.replicate 513 42)).2
          = [.message_handler (List.replicate 513 42), .async_read_header] := by
  refine ⟨by decide, by decide, by decide, ?_⟩
  exact body_read_complete_effects_ok posix_platform _ error_code.success _ rfl rfl (by decide)

/-- C4, as the code behaves: a header whose octet 0 is `0x01` is decoded like
any other header, as the 32-bit big-endian length `2^24 + b1*2^16 + b2*2^8 +
b3`; a payload read of that length is scheduled, and when it completes
without error the octets received are passed to the message handler as a
regular message and the next header read is scheduled.  Neither handler
writes to the socket. -/
theorem ping_header_is_decoded_as_length (p : platform) (c : tcp_connection)
    (ec1 ec2 : error_code) (b1 b2 b3 : byte) (received : List byte)
    (hok1 : ec1.failed = false) (hok2 : ec2.failed = false)
    (hmh : c.has_message_handler = true) (hcap : c.m_capabilities ≠ 0) :
    (c.header_read_complete p ec1 1 b1 b2 b3).2
        = [.async_read_body (2 ^ 24 + b1.val * 2 ^ 16 + b2.val * 2 ^ 8 + b3.val)]
      ∧ ((c.header_read_complete p ec1 1 b1 b2 b3).1.body_read_complete p ec2 received).2
          = [.message_handler received, .async_read_header]
      ∧ ((c.header_read_complete p ec1 1 b1 b2 b3).2
          ++ ((c.header_read_complete p ec1 1 b1 b2 b3).1.body_read_complete p ec2
                received).2).any effect.is_write = false := by
  have hst := header_read_complete_state_ok p c ec1 1 b1 b2 b3
  refine ⟨?_, ?_, ?_⟩
  · rw [header_read_complete_effects_ok p c ec1 1 b1 b2 b3 hok1]
    have hne : ¬ ((1 : byte) = 0 ∧ b1 = 0 ∧ b2 = 0 ∧ b3 = 0) := by
      rintro ⟨r0, -⟩
      exact absurd r0 (by decide)
    rw [if_neg hne]
    simp [be32]
  · apply body_read_complete_effects_ok p _ ec2 received hok2
    · rw [hst.2, hmh]
    · rw [hst.1]
      exact hcap
  · rw [List.any_append, header_read_complete_never_writes, body_read_complete_never_writes]
    rfl

/-- C4 at a concrete input: the header `01 00 00 02` schedules a payload read
of 16777218 octets. -/
theorem ping_header_is_decoded_as_length_witness :
    (tcp_connection.after_handshake.header_read_complete posix_platform
        error_code.success 1 0 0 2).2 = [.async_read_body 16777218] :=
  (ping_header_is_decoded_as_length posix_platform tcp_connection.after_handshake
    error_code.success error_code.success 0 0 2 [] rfl rfl rfl (by decide)).1

/-- C4 as stated fails: on the PING frame `01 00 00 02 AA BB` the connection
schedules a payload read of 16777218 octets; when the peer sends that many
(the PING payload `AA BB` first), all of them are passed to the message
handler as one regular message; no frame is written to the socket. -/
theorem ping_frame_is_read_as_long_message :
    (tcp_connection.after_handshake.header_read_complete posix_platform
        error_code.success 1 0 0 2).2 = [.async_read_body 16777218]
      ∧ ((tcp_connection.after_handshake.header_read_complete posix_platform
            error_code.success 1 0 0 2).1.body_read_complete posix_platform
            error_code.success ([0xAA, 0xBB] ++ List.replicate 16777216 0)).2
          = [.message_handler ([0xAA, 0xBB] ++ List.replicate 16777216 0), .async_read_header]
      ∧ ((tcp_connection.after_handshake.header_read_complete posix_platform
            error_code.success 1 0 0 2).2
          ++ ((tcp_connection.after_handshake.header_read_complete posix_platform
                error_code.success 1 0 0 2).1.body_read_complete posix_platform
                error_code.success ([0xAA, 0xBB] ++ List.replicate 16777216 0)).2).any
            effect.is_write = false := by
  refine ⟨by decide, ?_, ?_⟩
  · exact body_read_complete_effects_ok posix_platform _ error_code.success _ rfl rfl
      (by decide)
  · rw [List.any_append, header_read_complete_never_writes, body_read_complete_never_writes]
    rfl

/-! ## Raw-socket connection: writing -/

/-- C2, as the code behaves: for every exponent `L` in 0..15 and every payload
length `n` with `1 <= n <= 2^(9+L)` and `n < 2^24`, the first thing
`send_message` writes is the four octets `00`, then `n` as a 24-bit
big-endian integer. -/
theorem send_message_header_below_16MiB (p : platform) (c : tcp_connection)
    (message : Nat → byte) (n : Nat) (ec1 ec2 : error_code) (L : Nat)
    (_hL : L ≤ 15) (_h1 : 1 ≤ n) (_hn : n ≤ 2 ^ (9 + L)) (h24 : n < 2 ^ 24) :
    (c.send_message p message n ec1 ec2).2.head?
      = some (.write (spec_message_header 0 n)) := by
  rw [send_message_header]
  have hz : to_byte (n / 2 ^ 24) = 0 := by
    apply Fin.ext
    simp only [to_byte, Fin.val_zero]
    omega
  rw [hz]
  rfl

/-- C2 at a concrete input: `L = 0` and a payload of 512 octets give the
header `00 00 02 00`. -/
theorem send_message_header_below_16MiB_witness :
    (tcp_connection.after_handshake.send_message posix_platform (fun _ => 0) 512
        error_code.success error_code.success).2.head?
      = some (.write [0, 0, 2, 0]) :=
  send_message_header_below_16MiB posix_platform tcp_connection.after_handshake (fun _ => 0)
    512 error_code.success error_code.success 0 (by decide) (by decide) (by decide) (by decide)

/-- C2 as stated fails at `L = 15`, `n = 2^24`: the header written is
`01 00 00 00`, whose octet 0 is not `0x00`. -/
theorem send_message_header_at_16MiB :
    (spec_max_length_exponent posix_platform tcp_connection.after_handshake_max = 15
        ∧ 1 ≤ 2 ^ 24 ∧ 2 ^ 24 ≤ 2 ^ (9 + 15))
      ∧ (tcp_connection.after_handshake_max.send_message posix_platform (fun _ => 0) (2 ^ 24)
            error_code.success error_code.success).2.head?
          = some (.write [1, 0, 0, 0])
      ∧ (tcp_connection.after_handshake_max.send_message posix_platform (fun _ => 0)
            (2 ^ 24) error_code.success error_code.success).2.head?
          ≠ some (.write (spec_message_header 0 (2 ^ 24))) := by
  rw [send_message_header]
  decide

/-! ## WebSocket transport -/

/-- C9: `send_message` calls the serializer once, with a buffer size of 10240;
when the length it returns is not zero, the one other effect is one WebSocket
message whose payload is the first `length` octets of the buffer, and the
result is `true`; when it is zero nothing is sent and the result is `false`. -/
theorem send_message_serializes_once_and_sends_at_most_one {M : Type}
    (t : websocket_transport M) (m : M) (stack : Nat → byte) :
    ws_effect.serialize_sizes (t.send_message m stack).2 = [10240]
      ∧ ((t.m_serializer.serialize m stack 10240).2 ≠ 0 →
          t.send_message m stack
            = (true, [.serialize m 10240,
                .send t.m_handle
                  (read_bytes (t.m_serializer.serialize m stack 10240).1
                    (t.m_serializer.serialize m stack 10240).2) .BINARY])
          ∧ ws_effect.payloads (t.send_message m stack).2
            = [read_bytes (t.m_serializer.serialize m stack 10240).1
                (t.m_serializer.serialize m stack 10240).2])
      ∧ ((t.m_serializer.serialize m stack 10240).2 = 0 →
          t.send_message m stack = (false, [.serialize m 10240])
          ∧ ws_effect.payloads (t.send_message m stack).2 = []) := by
  unfold websocket_transport.send_message
  refine ⟨?_, ?_, ?_⟩
  · simp only [Nat.reduceMul]
    split <;> rfl
  · intro h
    simp only [Nat.reduceMul] at h ⊢
    rw [if_pos h]
    exact ⟨rfl, rfl⟩
  · intro h
    simp only [Nat.reduceMul] at h ⊢
    rw [if_neg (not_not.mpr h)]
    exact ⟨rfl, rfl⟩

/-- C5, as the code behaves: whichever encoding the transport's serializer
implements, MsgPack or JSON, the WebSocket message `send_message` sends (when
the serialized length is not zero) carries the binary opcode. -/
theorem send_message_opcode_is_binary {M : Type} (t : websocket_transport M) (m : M)
    (stack : Nat → byte) :
    ws_effect.opcodes (t.send_message m stack).2
      = if (t.m_serializer.serialize m stack 10240).2 ≠ 0 then [.BINARY] else [] := by
  unfold websocket_transport.send_message
  simp only [Nat.reduceMul]
  split <;> rfl

/-- C5 as stated fails: a transport whose serializer is of kind JSON sends its
message with the binary opcode, not the text opcode. -/
theorem json_transport_sends_binary :
    json_transport.m_serializer.kind = .json
      ∧ json_transport.send_message () (fun _ => 0)
          = (true, [.serialize () 10240, .send 7 [0x5B, 0x5D] .BINARY])
      ∧ ws_effect.opcodes (json_transport.send_message () (fun _ => 0)).2 ≠ [.TEXT] := by
  decide

/-! ## Random identifiers -/

/-- C6: for a 64-bit value `id` the constructor succeeds exactly when
`id <= 2^53`; then `id()` of the object is `id`; for `id > 2^53` it throws
`invalid_argument` and yields no object. -/
theorem wamp_random_id_from_accepts_iff (id : Nat) (_h64 : id < 2 ^ 64) :
    ((∃ r, wamp_random_id.wamp_random_id_from id = .ok r) ↔ id ≤ 2 ^ 53)
      ∧ (id ≤ 2 ^ 53 →
          ∃ r, wamp_random_id.wamp_random_id_from id = .ok r ∧ r.id = id)
      ∧ (2 ^ 53 < id →
          ∃ what, wamp_random_id.wamp_random_id_from id
            = .error (.invalid_argument what)) := by
  unfold wamp_random_id.wamp_random_id_from
  simp only [wamp_random_id.MAX]
  by_cases h : id > 2 ^ 53
  · rw [if_pos h]
    refine ⟨⟨?_, ?_⟩, ?_, ?_⟩
    · rintro ⟨r, hr⟩
      cases hr
    · intro hle
      omega
    · intro hle
      omega
    · intro _
      exact ⟨_, rfl⟩
  · rw [if_neg h]
    refine ⟨⟨?_, ?_⟩, ?_, ?_⟩
    · intro _
      omega
    · intro _
      exact ⟨_, rfl⟩
    · intro _
      exact ⟨_, rfl, rfl⟩
    · intro hlt
      exact absurd hlt h

/-- C6 at concrete inputs: `2^53` is accepted and read back, `2^53 + 1` is
rejected. -/
theorem wamp_random_id_from_accepts_iff_witness :
    (∃ r, wamp_random_id.wamp_random_id_from (2 ^ 53) = .ok r ∧ r.id = 2 ^ 53)
      ∧ (∃ what, wamp_random_id.wamp_random_id_from (2 ^ 53 + 1)
          = .error (.invalid_argument what)) :=
  ⟨(wamp_random_id_from_accepts_iff (2 ^ 53) (by decide)).2.1 (by decide),
    (wamp_random_id_from_accepts_iff (2 ^ 53 + 1) (by decide)).2.2 (by decide)⟩

/-- C7: a default-constructed identifier is not valid; every identifier the
constructor accepts is valid, since `INVALID = 2^64 - 1` is larger than `MAX =
2^53`. -/
theorem wamp_random_id_valid_iff_set (id : Nat) (r : wamp_random_id)
    (hok : wamp_random_id.wamp_random_id_from id = .ok r) :
    wamp_random_id.wamp_random_id_default.is_valid = false
      ∧ r.is_valid = true
      ∧ wamp_random_id.INVALID = 2 ^ 64 - 1
      ∧ wamp_random_id.MAX < wamp_random_id.INVALID := by
  unfold wamp_random_id.wamp_random_id_from at hok
  simp only [wamp_random_id.MAX] at hok
  refine ⟨by decide, ?_, rfl, by decide⟩
  split at hok
  · cases hok
  · rename_i hle
    cases hok
    simp only [wamp_random_id.is_valid, wamp_random_id.INVALID, bne_iff_ne, ne_eq]
    omega

/-- C7 at a concrete input: the identifier made from `2^53` is valid. -/
theorem wamp_random_id_valid_iff_set_witness :
    wamp_random_id.wamp_random_id_from (2 ^ 53) = .ok ⟨2 ^ 53⟩
      ∧ wamp_random_id.is_valid ⟨2 ^ 53⟩ = true :=
  ⟨rfl, (wamp_random_id_valid_iff_set (2 ^ 53) ⟨2 ^ 53⟩ (by rfl)).2.1⟩

end bonefish
